import Mathlib

/-!
Shallow embedding of `src/shiqi_grafana_chart_mcp/__init__.py`, an MCP tool
adapter exposing four operations:

  * `list_prometheus_metrics` — GET to the metrics backend, reshape the JSON;
  * `generate_promql_prompt`  — pure string composition;
  * `explain_promql_prompt`   — pure string composition;
  * `create_grafana_panel`    — POST to the dashboard backend, reshape the JSON.

Python dictionaries returned by the operations are modelled as `Json` values.
The single outbound HTTP call of each I/O operation is modelled by an explicit
`Except String Response` argument: `Except.error e` is the call raising a
connection exception with text `e`, `Except.ok resp` is a received response
whose body either parses to a `Json` value or fails to parse (the exception
text of `resp.json()` is carried in the `Except.error` of `Response.body`).
Raised-and-uncaught Python exceptions are the `Except.error` of each
operation's result type.
-/

/-- Python values as produced by `resp.json()` and by the dict literals of the
source: `None`, booleans, integers, strings, lists and dicts. -/
inductive Json where
  | null : Json
  | bool (b : Bool) : Json
  | num (n : Int) : Json
  | str (s : String) : Json
  | arr (xs : List Json) : Json
  | obj (fs : List (String × Json)) : Json

/-- Python `d.get(k)` on a dict (first binding wins); `none` both for a missing
key and for a non-dict receiver (where the attribute access raises). -/
def Json.get? : Json → String → Option Json
  | .obj fs, k => (fs.find? (fun p => p.1 == k)).map (fun p => p.2)
  | _, _ => none

mutual

/-- Python `repr` rendering, as used by `str` on lists and dicts: this is the
text interpolated by `str(data)` in the source when `data` is a container. -/
def pyStr : Json → String
  | .null => "None"
  | .bool true => "True"
  | .bool false => "False"
  | .num n => toString n
  | .str s => "\x27" ++ s ++ "\x27"
  | .arr xs => "[" ++ pyStrList xs ++ "]"
  | .obj fs => "\x7b" ++ pyStrFields fs ++ "\x7d"

/-- Comma-space separated `repr`s of list elements. -/
def pyStrList : List Json → String
  | [] => ""
  | [x] => pyStr x
  | x :: y :: xs => pyStr x ++ ", " ++ pyStrList (y :: xs)

/-- Comma-space separated `'key': repr(value)` renderings of dict entries. -/
def pyStrFields : List (String × Json) → String
  | [] => ""
  | [(k, v)] => "\x27" ++ k ++ "\x27: " ++ pyStr v
  | (k, v) :: f :: fs => "\x27" ++ k ++ "\x27: " ++ pyStr v ++ ", " ++ pyStrFields (f :: fs)

end

/-- Python `str(x)`, as interpolated by an f-string: a string renders as
itself, every other value renders as its `repr`. -/
def pyToStr : Json → String
  | .str s => s
  | j => pyStr j

/-- Python type names, used in the exception text of attribute errors. -/
def pyTypeName : Json → String
  | .null => "NoneType"
  | .bool _ => "bool"
  | .num _ => "int"
  | .str _ => "str"
  | .arr _ => "list"
  | .obj _ => "dict"

/-- Exception text of `x.get(...)` on a value with no `get` attribute. -/
def noGetAttrMsg (j : Json) : String :=
  "\x27" ++ pyTypeName j ++ "\x27 object has no attribute \x27get\x27"

/-- Python `len(x)`; `none` models the `TypeError` raised on values with no
length. -/
def pyLen : Json → Option Nat
  | .arr xs => some xs.length
  | .str s => some s.length
  | .obj fs => some fs.length
  | _ => none

/-- Python `x[:5]`; `none` models the `TypeError` raised on unsliceable
values (dicts included). -/
def pySlice5 : Json → Option Json
  | .arr xs => some (.arr (xs.take 5))
  | .str s => some (.str ⟨s.data.take 5⟩)
  | _ => none

/-- Python truthiness of a value, as tested by `if result.get("uid")` and by
`if available_metrics` / `if extra_context`. -/
def pyTruthy : Json → Bool
  | .null => false
  | .bool b => b
  | .num n => n != 0
  | .str s => s != ""
  | .arr xs => !xs.isEmpty
  | .obj fs => !fs.isEmpty

/-- An HTTP response: its status code and the outcome of `resp.json()`
(`Except.error` carries the exception text when the body is unparseable). -/
structure Response where
  status_code : Nat
  body : Except String Json

/-- The dict literal `\x7b"status": "error", "message": msg\x7d` returned by every
error branch of the source. -/
def errEnv (msg : String) : Json :=
  Json.obj [("status", Json.str "error"), ("message", Json.str msg)]

/-- Python `data.get("status") == "success"` (line 23 of the source). -/
def isSuccessStatus : Option Json → Bool
  | some (.str s) => s == "success"
  | _ => false

/-- The f-string
`f"当前Prometheus有\x7blen(metrics)\x7d个可用指标，例如：\x7bmetrics[:5]\x7d..."` of the
source (line 28): evaluates `len(metrics)` then `metrics[:5]`; a `TypeError`
from either is a raised exception carried as `Except.error`. -/
def metricsMessage (metrics : Json) : Except String String :=
  match pyLen metrics with
  | none => .error ("object of type \x27" ++ pyTypeName metrics ++ "\x27 has no len()")
  | some n =>
    match pySlice5 metrics with
    | none => .error "unhashable type: \x27slice\x27"
    | some sl => .ok ("当前Prometheus有" ++ toString n ++ "个可用指标，例如：" ++ pyToStr sl ++ "...")

/-- Body of the `try:` block of `list_prometheus_metrics` after a successful
`resp.json()` (lines 23–31): the non-dict case models the `AttributeError` of
`data.get` being caught by the `except` clause (line 32–33). -/
def list_metrics_of_data (data : Json) : Json :=
  match data with
  | .obj _ =>
    if isSuccessStatus (data.get? "status") then
      let metrics := (data.get? "data").getD (Json.arr [])
      match metricsMessage metrics with
      | .ok msg =>
          Json.obj [("status", Json.str "ok"), ("metrics", metrics), ("message", Json.str msg)]
      | .error e => errEnv ("指标枚举失败: " ++ e)
    else
      errEnv (pyToStr data)
  | other => errEnv ("指标枚举失败: " ++ noGetAttrMsg other)

/-- The whole `try:`/`except` of `list_prometheus_metrics` (lines 21–33),
given the received response: a body that fails to parse is an exception from
`resp.json()` caught by the `except` clause. -/
def list_response_result (resp : Response) : Json :=
  match resp.body with
  | .error e => errEnv ("指标枚举失败: " ++ e)
  | .ok data => list_metrics_of_data data

/-- `list_prometheus_metrics` (lines 13–33).  The GET (lines 19–20) happens
before the `try:` block, so a connection exception raised by the call
propagates out of the function unhandled. -/
def list_prometheus_metrics (net : Except String Response) : Except String Json :=
  match net with
  | .error e => .error e
  | .ok resp => .ok (list_response_result resp)

/-- The placeholder used when `available_metrics` is falsy (line 44). -/
def no_metrics_placeholder : String := "（当前无可用指标，请先查询Prometheus指标列表）"

/-- `metrics_str` (line 44): `"\n".join(available_metrics)` when the argument
is truthy (a non-empty list), the placeholder when it is `None` or empty. -/
def metrics_str_of : Option (List String) → String
  | some (m :: ms) => String.intercalate "\n" (m :: ms)
  | _ => no_metrics_placeholder

/-- Second line of the prompt (line 47), with its trailing newline. -/
def promql_header : String :=
  "以下是当前Prometheus监控系统中的全部可用metrics指标名称，每个指标一行：\n"

/-- The conditional segment of line 49: the label and context when
`extra_context` is truthy, the empty string otherwise.  Note the newline that
follows it on line 49 is outside the conditional. -/
def ctx_line (extra_context : String) : String :=
  if extra_context != "" then "其它上下文信息：" ++ extra_context else ""

/-- Fixed closing instructions of the prompt (lines 50–51). -/
def promql_footer : String :=
  "请根据上述用户需求和可用指标，生成**最贴切的可直接用于Grafana Panel的PromQL查询语句**。\n只返回查询语句，不要多余解释。"

/-- The `prompt` local of `generate_promql_prompt` (lines 45–52). -/
def promql_prompt (user_intent : String) (available_metrics : Option (List String))
    (extra_context : String) : String :=
  "用户需求：" ++ user_intent ++ "\n" ++ promql_header ++ metrics_str_of available_metrics
    ++ "\n" ++ ctx_line extra_context ++ "\n" ++ promql_footer

/-- `generate_promql_prompt` (lines 35–57): pure composition of the returned
dict. -/
def generate_promql_prompt (user_intent : String) (available_metrics : Option (List String))
    (extra_context : String) : Json :=
  Json.obj [("status", Json.str "ok"),
            ("prompt", Json.str (promql_prompt user_intent available_metrics extra_context)),
            ("instruction", Json.str "将该prompt交给大模型生成PromQL查询，直接用于Grafana面板")]

/-- Default of the `explanation_request` parameter (line 61). -/
def default_explanation_request : String := "请详细逐步解释这个PromQL查询语句，并用中文输出"

/-- The `prompt` local of `explain_promql_prompt` (lines 69–72). -/
def explain_prompt (promql_query explanation_request : String) : String :=
  "需要解释的PromQL查询语句如下：\n" ++ promql_query ++ "\n\n" ++ explanation_request

/-- `explain_promql_prompt` (lines 60–77): pure composition of the returned
dict. -/
def explain_promql_prompt (promql_query explanation_request : String) : Json :=
  Json.obj [("status", Json.str "ok"),
            ("prompt", Json.str (explain_prompt promql_query explanation_request)),
            ("instruction", Json.str "将该prompt交给大模型，获得对PromQL查询的详细中文解释")]

/-- Python `dashboard_title.replace(" ", "-")` (line 119): every space becomes
a hyphen. -/
def replaceSpaces (s : String) : String :=
  ⟨s.data.map (fun c => if c = ' ' then '-' else c)⟩

/-- The success message of `create_grafana_panel` (lines 120–125). -/
def create_success_message (dashboard_title link : String) : String :=
  "已为你成功创建 Grafana 仪表盘 **" ++ dashboard_title ++ "**！\n\n"
    ++ "[点击此处直接查看仪表盘](" ++ link ++ ")\n\n"
    ++ "你可以在 Grafana 上继续自定义面板、设置告警等。\n\n"
    ++ "如需进一步添加其他指标或批量创建，请直接回复需求。"

/-- The `dashboard` dict built by `create_grafana_panel` (lines 88–107). -/
def dashboard_descriptor (dashboard_title title promql panel_type : String) : Json :=
  Json.obj [("id", Json.null), ("uid", Json.null), ("title", Json.str dashboard_title),
    ("tags", Json.arr []), ("timezone", Json.str "browser"),
    ("schemaVersion", Json.num 17), ("version", Json.num 0), ("refresh", Json.str "5s"),
    ("panels", Json.arr [Json.obj [("id", Json.num 1), ("type", Json.str panel_type),
      ("title", Json.str title),
      ("datasource", Json.obj [("type", Json.str "prometheus")]),
      ("targets", Json.arr [Json.obj [("expr", Json.str promql), ("refId", Json.str "A")]]),
      ("gridPos", Json.obj [("x", Json.num 0), ("y", Json.num 0),
                            ("w", Json.num 12), ("h", Json.num 6)])]])]

/-- The `payload` dict POSTed to the dashboard backend (lines 108–112). -/
def create_payload (dashboard_title title promql panel_type : String) : Json :=
  Json.obj [("dashboard", dashboard_descriptor dashboard_title title promql panel_type),
            ("overwrite", Json.bool false),
            ("message", Json.str ("Created by MCP tool: " ++ dashboard_title))]

/-- The whole `try:`/`except` of `create_grafana_panel` (lines 115–130), given
the received response.  `resp.status_code == 200 and result.get("uid")` short
circuits: the `AttributeError` of `.get` on a non-dict body (caught as
`解析响应失败`) can only fire when the status is 200. -/
def create_response_result (grafana_url dashboard_title : String) (resp : Response) : Json :=
  match resp.body with
  | .error e => errEnv ("解析响应失败: " ++ e)
  | .ok result =>
    if resp.status_code == 200 then
      match result with
      | .obj _ =>
        match result.get? "uid" with
        | some uidv =>
          if pyTruthy uidv then
            let link := grafana_url ++ "/d/" ++ pyToStr uidv ++ "/" ++ replaceSpaces dashboard_title
            Json.obj [("status", Json.str "ok"),
                      ("message", Json.str (create_success_message dashboard_title link)),
                      ("url", Json.str link)]
          else errEnv ("创建失败，返回信息: " ++ pyToStr result)
        | none => errEnv ("创建失败，返回信息: " ++ pyToStr result)
      | other => errEnv ("解析响应失败: " ++ noGetAttrMsg other)
    else errEnv ("创建失败，返回信息: " ++ pyToStr result)

/-- `create_grafana_panel` (lines 79–130).  `now_str` is the timestamp string
`datetime.datetime.now().strftime(...)` of line 85.  The POST (lines 113–114)
happens before the `try:` block, so a connection exception raised by the call
propagates out of the function unhandled. -/
def create_grafana_panel (grafana_url now_str title promql panel_type : String)
    (net : Except String Response) : Except String Json :=
  let dashboard_title := title ++ "_" ++ now_str
  let _payload := create_payload dashboard_title title promql panel_type
  match net with
  | .error e => .error e
  | .ok resp => .ok (create_response_result grafana_url dashboard_title resp)

/-- Ambient state an invocation can observe: the current timestamp, the two
backends' behaviour, and the configured base URL.  The pure operations take it
and ignore it (their source bodies reference no environment, time or
network). -/
structure World where
  now_str : String
  metrics_net : Except String Response
  dashboard_net : Except String Response
  grafana_url : String

/-- Invocation of `generate_promql_prompt` in a world: the body performs no
I/O and raises nothing, so the result is always `Except.ok`. -/
def generate_promql_prompt_invoke (_w : World) (user_intent : String)
    (available_metrics : Option (List String)) (extra_context : String) : Except String Json :=
  .ok (generate_promql_prompt user_intent available_metrics extra_context)

/-- Invocation of `explain_promql_prompt` in a world: no I/O, never raises. -/
def explain_promql_prompt_invoke (_w : World) (promql_query explanation_request : String) :
    Except String Json :=
  .ok (explain_promql_prompt promql_query explanation_request)

/-- The Result Envelope property in the words of the spec: the invocation
returns (rather than raises), and the returned dict's `status` field is
`"ok"` or `"error"`. -/
def spec_returnsEnvelope (r : Except String Json) : Prop :=
  ∃ j, r = Except.ok j ∧
    (j.get? "status" = some (Json.str "ok") ∨ j.get? "status" = some (Json.str "error"))

/-- In the words of the claim for the prompt shape: the extra-context line
omitted entirely, leaving no residual line or separator. -/
def spec_prompt_context_omitted (user_intent : String)
    (available_metrics : Option (List String)) : String :=
  "用户需求：" ++ user_intent ++ "\n" ++ promql_header ++ metrics_str_of available_metrics
    ++ "\n" ++ promql_footer

/-! ## Helper lemmas -/

theorem errEnv_status (msg : String) :
    (errEnv msg).get? "status" = some (Json.str "error") := rfl

/-- Whatever response `list_prometheus_metrics` receives, the dict it builds
has an `"ok"` or `"error"` status field. -/
theorem list_result_env (resp : Response) :
    (list_response_result resp).get? "status" = some (Json.str "ok")
    ∨ (list_response_result resp).get? "status" = some (Json.str "error") := by
  rcases resp with ⟨sc, body⟩
  rcases body with e | data
  · exact Or.inr rfl
  · rcases data with _ | b | n | s | xs | fs
    · exact Or.inr rfl
    · exact Or.inr rfl
    · exact Or.inr rfl
    · exact Or.inr rfl
    · exact Or.inr rfl
    · simp only [list_response_result, list_metrics_of_data]
      split
      · split
        · exact Or.inl rfl
        · exact Or.inr rfl
      · exact Or.inr rfl

/-- Whatever response `create_grafana_panel` receives, the dict it builds has
an `"ok"` or `"error"` status field. -/
theorem create_result_env (G dt : String) (resp : Response) :
    (create_response_result G dt resp).get? "status" = some (Json.str "ok")
    ∨ (create_response_result G dt resp).get? "status" = some (Json.str "error") := by
  rcases resp with ⟨sc, body⟩
  rcases body with e | result
  · exact Or.inr rfl
  · simp only [create_response_result]
    split
    · rcases result with _ | b | n | s | xs | fs
      · exact Or.inr rfl
      · exact Or.inr rfl
      · exact Or.inr rfl
      · exact Or.inr rfl
      · exact Or.inr rfl
      · rcases hg : (Json.obj fs).get? "uid" with _ | uidv
        · simp only [hg]
          exact Or.inr rfl
        · simp only [hg]
          by_cases ht : pyTruthy uidv = true
          · rw [if_pos ht]
            exact Or.inl rfl
          · rw [if_neg ht]
            exact Or.inr rfl
    · exact Or.inr rfl

/-! ## Claims -/

/-- C1, as stated, is false on the code: the outbound HTTP call of
`list_prometheus_metrics` (and of `create_grafana_panel`) is made before the
`try:` block, so a raised connection exception propagates out of the operation
unhandled instead of being returned as an envelope. -/
theorem C1_counterexample :
    ¬ spec_returnsEnvelope (list_prometheus_metrics (Except.error "Connection refused"))
    ∧ ¬ spec_returnsEnvelope (create_grafana_panel "http://grafana" "20240101000000"
          "CPU" "up" "timeseries" (Except.error "Connection refused")) := by
  constructor
  · rintro ⟨j, hj, -⟩
    exact Except.noConfusion hj
  · rintro ⟨j, hj, -⟩
    exact Except.noConfusion hj

/-- C1 amended: whenever the outbound call yields a response, every outcome of
`list_prometheus_metrics` and `create_grafana_panel` is a structured envelope
whose status field is "ok" or "error" (exceptions while parsing the body or
building the result are caught); but a connection exception raised by the
outbound call itself propagates unhandled, since the HTTP request is issued
outside the `try:` block. -/
theorem C1_amended (resp₁ resp₂ : Response) (G now t q pt e₁ e₂ : String) :
    spec_returnsEnvelope (list_prometheus_metrics (Except.ok resp₁))
    ∧ spec_returnsEnvelope (create_grafana_panel G now t q pt (Except.ok resp₂))
    ∧ list_prometheus_metrics (Except.error e₁) = Except.error e₁
    ∧ create_grafana_panel G now t q pt (Except.error e₂) = Except.error e₂ :=
  ⟨⟨list_response_result resp₁, rfl, list_result_env resp₁⟩,
   ⟨create_response_result G (t ++ "_" ++ now) resp₂, rfl,
    create_result_env G (t ++ "_" ++ now) resp₂⟩,
   rfl, rfl⟩

/-- Claim C2: when the dashboard backend replies with HTTP 200 and a parsed
body whose `uid` field is a non-empty string, `create_grafana_panel` returns
status "ok" with `url` equal to the dashboard base URL followed by "/d/", the
uid, "/", and the timestamped dashboard title with every space replaced by a
hyphen. -/
theorem C2_create_success (G now title promql pt uid : String) (result : Json)
    (huid : result.get? "uid" = some (Json.str uid)) (hne : uid ≠ "") :
    create_grafana_panel G now title promql pt (Except.ok ⟨200, Except.ok result⟩)
      = Except.ok (Json.obj [("status", Json.str "ok"),
          ("message", Json.str (create_success_message (title ++ "_" ++ now)
            (G ++ "/d/" ++ uid ++ "/" ++ replaceSpaces (title ++ "_" ++ now)))),
          ("url", Json.str (G ++ "/d/" ++ uid ++ "/" ++ replaceSpaces (title ++ "_" ++ now)))]) := by
  have htr : pyTruthy (Json.str uid) = true := by
    simp [pyTruthy, hne]
  rcases result with _ | b | n | s | xs | fs
  · exact absurd huid (by simp [Json.get?])
  · exact absurd huid (by simp [Json.get?])
  · exact absurd huid (by simp [Json.get?])
  · exact absurd huid (by simp [Json.get?])
  · exact absurd huid (by simp [Json.get?])
  · simp only [create_grafana_panel, create_response_result, huid, htr, if_true,
      beq_self_eq_true, pyToStr]

/-- Witness for C2, at the spec's Scenario 3 input: HTTP 200 and body
`\x7b"uid": "abc123"\x7d` for title "CPU". -/
theorem C2_create_success_witness :
    (Json.obj [("uid", Json.str "abc123")]).get? "uid" = some (Json.str "abc123")
    ∧ "abc123" ≠ ""
    ∧ create_grafana_panel "http://grafana" "20240101000000" "CPU" "up" "timeseries"
        (Except.ok ⟨200, Except.ok (Json.obj [("uid", Json.str "abc123")])⟩)
      = Except.ok (Json.obj [("status", Json.str "ok"),
          ("message", Json.str (create_success_message ("CPU" ++ "_" ++ "20240101000000")
            ("http://grafana" ++ "/d/" ++ "abc123" ++ "/"
              ++ replaceSpaces ("CPU" ++ "_" ++ "20240101000000")))),
          ("url", Json.str ("http://grafana" ++ "/d/" ++ "abc123" ++ "/"
              ++ replaceSpaces ("CPU" ++ "_" ++ "20240101000000")))]) :=
  ⟨rfl, by decide,
   C2_create_success "http://grafana" "20240101000000" "CPU" "up" "timeseries" "abc123"
     (Json.obj [("uid", Json.str "abc123")]) rfl (by decide)⟩

/-- Claim C3: when the response body parses as JSON whose `status` field is
"success" and whose `data` field is a list, `list_prometheus_metrics` returns
status "ok", the backend's data list as `metrics`, and a message carrying the
count and the first five names. -/
theorem C3_list_success (sc : Nat) (data : Json) (ms : List Json)
    (hs : data.get? "status" = some (Json.str "success"))
    (hd : data.get? "data" = some (Json.arr ms)) :
    list_prometheus_metrics (Except.ok ⟨sc, Except.ok data⟩)
      = Except.ok (Json.obj [("status", Json.str "ok"), ("metrics", Json.arr ms),
          ("message", Json.str ("当前Prometheus有" ++ toString ms.length
            ++ "个可用指标，例如：" ++ pyToStr (Json.arr (ms.take 5)) ++ "..."))]) := by
  rcases data with _ | b | n | s | xs | fs
  · exact absurd hs (by simp [Json.get?])
  · exact absurd hs (by simp [Json.get?])
  · exact absurd hs (by simp [Json.get?])
  · exact absurd hs (by simp [Json.get?])
  · exact absurd hs (by simp [Json.get?])
  · simp only [list_prometheus_metrics, list_response_result, list_metrics_of_data,
      hs, hd, isSuccessStatus, beq_self_eq_true, if_true, Option.getD_some,
      metricsMessage, pyLen, pySlice5, pyToStr]

/-- Witness for C3, at the spec's Scenario 1 input. -/
theorem C3_list_success_witness :
    (Json.obj [("status", Json.str "success"),
        ("data", Json.arr [Json.str "up", Json.str "cpu_usage", Json.str "mem_free"])]).get? "status"
      = some (Json.str "success")
    ∧ (Json.obj [("status", Json.str "success"),
        ("data", Json.arr [Json.str "up", Json.str "cpu_usage", Json.str "mem_free"])]).get? "data"
      = some (Json.arr [Json.str "up", Json.str "cpu_usage", Json.str "mem_free"])
    ∧ list_prometheus_metrics (Except.ok ⟨200, Except.ok (Json.obj [("status", Json.str "success"),
        ("data", Json.arr [Json.str "up", Json.str "cpu_usage", Json.str "mem_free"])])⟩)
      = Except.ok (Json.obj [("status", Json.str "ok"),
          ("metrics", Json.arr [Json.str "up", Json.str "cpu_usage", Json.str "mem_free"]),
          ("message", Json.str ("当前Prometheus有"
            ++ toString [Json.str "up", Json.str "cpu_usage", Json.str "mem_free"].length
            ++ "个可用指标，例如：" ++ pyToStr (Json.arr ([Json.str "up", Json.str "cpu_usage",
              Json.str "mem_free"].take 5)) ++ "..."))]) :=
  ⟨rfl, rfl,
   C3_list_success 200 (Json.obj [("status", Json.str "success"),
       ("data", Json.arr [Json.str "up", Json.str "cpu_usage", Json.str "mem_free"])])
     [Json.str "up", Json.str "cpu_usage", Json.str "mem_free"] rfl rfl⟩

/-- C4, as stated, is false on the code: at the spec's Scenario 4 input
(HTTP 500), the message is the Chinese failure text
`创建失败，返回信息: ...` and does not contain the literal word "failed". -/
theorem C4_counterexample :
    create_grafana_panel "http://grafana" "20240101000000" "CPU" "up" "timeseries"
        (Except.ok ⟨500, Except.ok (Json.obj [("message", Json.str "Internal Server Error")])⟩)
      = Except.ok (Json.obj [("status", Json.str "error"),
          ("message", Json.str "创建失败，返回信息: \x7b\x27message\x27: \x27Internal Server Error\x27\x7d")])
    ∧ ¬ ("failed".data
          <:+: ("创建失败，返回信息: \x7b\x27message\x27: \x27Internal Server Error\x27\x7d").data) :=
  ⟨rfl, by decide⟩

/-- Claim C4 amended: when the response body parses as a JSON object but the
HTTP status is not 200 or the `uid` field is missing or empty, the result is
status "error" and the message is the Chinese failure text 创建失败
("creation failed") followed by the rendering of the raw parsed body. -/
theorem C4_create_failure (sc : Nat) (G now title promql pt : String) (fs : List (String × Json))
    (h : sc ≠ 200 ∨ (Json.obj fs).get? "uid" = none
         ∨ (Json.obj fs).get? "uid" = some (Json.str "")) :
    create_grafana_panel G now title promql pt (Except.ok ⟨sc, Except.ok (Json.obj fs)⟩)
      = Except.ok (Json.obj [("status", Json.str "error"),
          ("message", Json.str ("创建失败，返回信息: " ++ pyStr (Json.obj fs)))]) := by
  rcases h with hsc | hnone | hempty
  · have : (sc == 200) = false := by simpa using hsc
    simp only [create_grafana_panel, create_response_result, this, Bool.false_eq_true,
      if_false, errEnv, pyToStr]
  · by_cases hsc : sc = 200
    · subst hsc
      simp only [create_grafana_panel, create_response_result, hnone, beq_self_eq_true,
        if_true, errEnv, pyToStr]
    · have : (sc == 200) = false := by simpa using hsc
      simp only [create_grafana_panel, create_response_result, this, Bool.false_eq_true,
        if_false, errEnv, pyToStr]
  · by_cases hsc : sc = 200
    · subst hsc
      simp only [create_grafana_panel, create_response_result, hempty, beq_self_eq_true,
        if_true, errEnv, pyToStr, pyTruthy, bne_self_eq_false, Bool.false_eq_true, if_false]
    · have : (sc == 200) = false := by simpa using hsc
      simp only [create_grafana_panel, create_response_result, this, Bool.false_eq_true,
        if_false, errEnv, pyToStr]

/-- Witness for the amended C4, at the spec's Scenario 4 input (HTTP 500). -/
theorem C4_create_failure_witness :
    ((500 : Nat) ≠ 200
      ∨ (Json.obj [("message", Json.str "Internal Server Error")]).get? "uid" = none
      ∨ (Json.obj [("message", Json.str "Internal Server Error")]).get? "uid"
          = some (Json.str ""))
    ∧ create_grafana_panel "http://grafana" "20240101000000" "CPU" "up" "timeseries"
        (Except.ok ⟨500, Except.ok (Json.obj [("message", Json.str "Internal Server Error")])⟩)
      = Except.ok (Json.obj [("status", Json.str "error"),
          ("message", Json.str ("创建失败，返回信息: "
            ++ pyStr (Json.obj [("message", Json.str "Internal Server Error")])))]) :=
  ⟨Or.inl (by decide),
   C4_create_failure 500 "http://grafana" "20240101000000" "CPU" "up" "timeseries"
     [("message", Json.str "Internal Server Error")] (Or.inl (by decide))⟩

/-- Claim C5: for every `user_intent`, every metrics list (including empty and
omitted) and every `extra_context`, `generate_promql_prompt` performs no I/O
(its invocation ignores the ambient world and never raises), returns status
"ok", and the composed prompt contains the `user_intent` text verbatim. -/
theorem C5_pure_verbatim (w : World) (u : String) (m : Option (List String)) (c : String) :
    generate_promql_prompt_invoke w u m c = Except.ok (generate_promql_prompt u m c)
    ∧ (generate_promql_prompt u m c).get? "status" = some (Json.str "ok")
    ∧ u.data <:+: (promql_prompt u m c).data :=
  ⟨rfl, rfl,
   ⟨("用户需求：").data,
    ("\n" ++ promql_header ++ metrics_str_of m ++ "\n" ++ ctx_line c ++ "\n" ++ promql_footer).data,
    by simp [promql_prompt, String.data_append]⟩⟩

/-- C6, as stated, is false on the code: with empty `extra_context` the
conditional context segment is empty but its trailing newline remains, leaving
a residual blank line, so the prompt differs from one with the context line
omitted entirely. -/
theorem C6_counterexample :
    promql_prompt "q" none "" ≠ spec_prompt_context_omitted "q" none := by decide

/-- Claim C6 amended: when `extra_context` is empty, the context label and
text are omitted but the line's unconditional newline remains, leaving an
empty residual line between the metric list and the closing instructions;
when the metrics list is empty or omitted, the placeholder line stating no
metrics are available appears in place of the newline-joined list. -/
theorem C6_amended (u : String) (m : Option (List String)) :
    promql_prompt u m "" = "用户需求：" ++ u ++ "\n" ++ promql_header
      ++ metrics_str_of m ++ "\n" ++ "\n" ++ promql_footer
    ∧ metrics_str_of none = no_metrics_placeholder
    ∧ metrics_str_of (some []) = no_metrics_placeholder := by
  refine ⟨?_, rfl, rfl⟩
  have hc : ctx_line "" = "" := rfl
  simp [promql_prompt, hc]

/-- Claim C7: when the response body parses as a JSON object whose `status`
field does not equal "success", `list_prometheus_metrics` returns status
"error" with the textual rendering of the parsed body as message. -/
theorem C7_list_nonsuccess (sc : Nat) (fs : List (String × Json))
    (h : (Json.obj fs).get? "status" ≠ some (Json.str "success")) :
    list_prometheus_metrics (Except.ok ⟨sc, Except.ok (Json.obj fs)⟩)
      = Except.ok (Json.obj [("status", Json.str "error"),
          ("message", Json.str (pyToStr (Json.obj fs)))]) := by
  have hfalse : isSuccessStatus ((Json.obj fs).get? "status") = false := by
    rcases hv : (Json.obj fs).get? "status" with _ | v
    · rfl
    · rcases v with _ | b | n | s | ys | gs
      · rfl
      · rfl
      · rfl
      · by_cases hse : s = "success"
        · exact absurd (by rw [hv, hse]) h
        · simp [isSuccessStatus, hse]
      · rfl
      · rfl
  simp only [list_prometheus_metrics, list_response_result, list_metrics_of_data,
    hfalse, Bool.false_eq_true, if_false, errEnv]

/-- Witness for C7, at the spec's Scenario 2 input: the message is the Python
rendering of the dict. -/
theorem C7_list_nonsuccess_witness :
    (Json.obj [("status", Json.str "error"), ("error", Json.str "bad request")]).get? "status"
      ≠ some (Json.str "success")
    ∧ list_prometheus_metrics (Except.ok ⟨200, Except.ok (Json.obj [("status", Json.str "error"),
        ("error", Json.str "bad request")])⟩)
      = Except.ok (Json.obj [("status", Json.str "error"),
          ("message", Json.str "\x7b\x27status\x27: \x27error\x27, \x27error\x27: \x27bad request\x27\x7d")]) := by
  refine ⟨by simp [Json.get?], ?_⟩
  have := C7_list_nonsuccess 200 [("status", Json.str "error"), ("error", Json.str "bad request")]
    (by simp [Json.get?])
  simpa using this

/-- Claim C8: calling `generate_promql_prompt` twice with identical arguments
produces identical results — its invocation is a pure, deterministic function
of its arguments, independent of the ambient world. -/
theorem C8_pure_idempotent (w₁ w₂ : World) (u : String) (m : Option (List String)) (c : String) :
    generate_promql_prompt_invoke w₁ u m c = generate_promql_prompt_invoke w₂ u m c := rfl

/-- Claim C9: `explain_promql_prompt` never fails (its invocation always
returns `Except.ok`), returns status "ok", and with the default
`explanation_request` the composed prompt embeds the fixed default request
text. -/
theorem C9_explain_default (w : World) (q : String) :
    explain_promql_prompt_invoke w q default_explanation_request
      = Except.ok (explain_promql_prompt q default_explanation_request)
    ∧ (explain_promql_prompt q default_explanation_request).get? "status" = some (Json.str "ok")
    ∧ default_explanation_request.data <:+: (explain_prompt q default_explanation_request).data :=
  ⟨rfl, rfl,
   ⟨("需要解释的PromQL查询语句如下：\n" ++ q ++ "\n\n").data, [],
    by simp [explain_prompt, String.data_append]⟩⟩

/-- Claim C10: when the response body parses as JSON with `status` "success"
but no `data` field, `list_prometheus_metrics` returns status "ok" with the
empty list as `metrics` and a message reporting a count of 0. -/
theorem C10_list_missing_data (sc : Nat) (data : Json)
    (hs : data.get? "status" = some (Json.str "success"))
    (hd : data.get? "data" = none) :
    list_prometheus_metrics (Except.ok ⟨sc, Except.ok data⟩)
      = Except.ok (Json.obj [("status", Json.str "ok"), ("metrics", Json.arr []),
          ("message", Json.str "当前Prometheus有0个可用指标，例如：[]...")]) := by
  rcases data with _ | b | n | s | xs | fs
  · exact absurd hs (by simp [Json.get?])
  · exact absurd hs (by simp [Json.get?])
  · exact absurd hs (by simp [Json.get?])
  · exact absurd hs (by simp [Json.get?])
  · exact absurd hs (by simp [Json.get?])
  · simp only [list_prometheus_metrics, list_response_result, list_metrics_of_data,
      hs, hd, isSuccessStatus, beq_self_eq_true, if_true, Option.getD_none,
      metricsMessage, pyLen, pySlice5, pyToStr]
    rfl

/-- Witness for C10: a body with `status` "success" and no `data` field. -/
theorem C10_list_missing_data_witness :
    (Json.obj [("status", Json.str "success")]).get? "status" = some (Json.str "success")
    ∧ (Json.obj [("status", Json.str "success")]).get? "data" = none
    ∧ list_prometheus_metrics
        (Except.ok ⟨200, Except.ok (Json.obj [("status", Json.str "success")])⟩)
      = Except.ok (Json.obj [("status", Json.str "ok"), ("metrics", Json.arr []),
          ("message", Json.str "当前Prometheus有0个可用指标，例如：[]...")]) :=
  ⟨rfl, rfl, C10_list_missing_data 200 (Json.obj [("status", Json.str "success")]) rfl rfl⟩
